import Mathlib

/-!
Verification of `scripts/generate_feed.py`: a static podcast-feed generator
that selects a subset of MP3 filenames from a directory (deterministic daily
rotation or random sampling), copies them, and renders an RSS 2.0 document.

The Python source is shallowly embedded below.  Machine integers are `Int`
(Python ints are unbounded); Python's `%` on a positive modulus agrees with
Lean's `Int.emod`.  Filesystem effects are modelled by explicit state passing,
and the ambient clock / RNG are modelled as explicit parameters, so every
definition is a pure, executable function.
-/

/-! ## Date arithmetic (embedding of `datetime.date.toordinal`)

`date(y,m,d).toordinal()` counts days from 0001-01-01 (= day 1) in the
proleptic Gregorian calendar, via `_days_before_year` and
`_days_before_month`. -/

/-- Embedding of Python `datetime`'s leap-year test `_is_leap`. -/
def isLeapYear (y : Nat) : Bool :=
  y % 4 == 0 && (y % 100 != 0 || y % 400 == 0)

/-- Embedding of `_days_before_year(y) = (y-1)*365 + (y-1)//4 - (y-1)//100 + (y-1)//400`. -/
def daysBeforeYear (y : Nat) : Nat :=
  (y - 1) * 365 + (y - 1) / 4 - (y - 1) / 100 + (y - 1) / 400

/-- Month lengths of a non-leap year, as in `datetime._DAYS_IN_MONTH`. -/
def daysInMonthList : List Nat := [31, 28, 31, 30, 31, 30, 31, 31, 30, 31, 30, 31]

/-- Embedding of `_days_before_month(y, m)`: days in year `y` preceding month `m`. -/
def daysBeforeMonth (y m : Nat) : Nat :=
  (daysInMonthList.take (m - 1)).sum + (if 2 < m && isLeapYear y then 1 else 0)

/-- Embedding of `date(y,m,d).toordinal()` (`_ymd2ord`). -/
def toOrdinal (y m d : Nat) : Nat :=
  daysBeforeYear y + daysBeforeMonth y m + d

/-- `date(2020,1,1).toordinal()`, the fixed epoch of line 86 of the source. -/
def epochOrdinal : Nat := toOrdinal 2020 1 1

/-- `today_index` of line 87: signed day count from the epoch 2020-01-01 to the
reference date (the source reads `date.today()`; we pass the date explicitly). -/
def dayIndexOf (y m d : Nat) : Int :=
  (toOrdinal y m d : Int) - (epochOrdinal : Int)

/-! ## Selection (lines 80-91 of `main`) -/

/-- Embedding of rotate-mode selection (lines 86-91): with `n = len(all_files)`,
`start = (today_index * take) % n`, and `chosen[i] = all_files[(start + i) % n]`
for `i in range(take)`.  Python's `%` on a positive modulus is floor-modulo,
which coincides with `Int.emod`; `range(take)` is empty for `take <= 0`. -/
def selectRotate (pool : List String) (tk dayIdx : Int) : List String :=
  let n : Int := (pool.length : Int)
  let start : Int := dayIdx * tk % n
  (List.range tk.toNat).map (fun i : Nat => pool.getD ((start + (i : Int)) % n).toNat "")

/-- Model of the stdlib call `random.sample(perm_source, k)` (line 84), which
raises `ValueError` unless `0 <= k <= n` and otherwise returns `k` distinct
uniformly chosen elements in arbitrary order — equivalently, the first `k`
entries of an RNG-chosen permutation `perm` of the population, which we take
as an explicit parameter. -/
def randomSample (perm : List String) (k : Int) : Option (List String) :=
  if 0 ≤ k ∧ k ≤ (perm.length : Int) then some (perm.take k.toNat) else none

inductive Mode where
  | rotate
  | random
deriving DecidableEq

/-- Embedding of the selection step of `main` (lines 80-91): `take = min(num, n)`,
then either `random.sample(all_files, take)` (which can raise, hence `Option`)
or the deterministic rotation.  `perm` is the RNG-chosen permutation of
`all_files` consumed by `random.sample`. -/
def choose (mode : Mode) (all_files : List String) (num dayIdx : Int)
    (perm : List String) : Option (List String) :=
  let n : Int := (all_files.length : Int)
  let tk : Int := min num n
  match mode with
  | .random => randomSample perm tk
  | .rotate => some (selectRotate all_files tk dayIdx)

/-! ## Title derivation (`sanitize_title`, lines 23-27) -/

/-- The characters stripped by Python `str.strip()` (via `str.isspace()`); the
ASCII and Latin-1 whitespace characters. -/
def pyIsSpace (c : Char) : Bool :=
  c == ' ' || c == '\t' || c == '\n' || c == '\x0b' || c == '\x0c' || c == '\r' ||
  c == '\x1c' || c == '\x1d' || c == '\x1e' || c == '\x1f' || c == '\x85' || c == '\xa0'

/-- Embedding of Python `str.strip()` with no argument: drop leading and
trailing whitespace. -/
def pyStrip (s : String) : String :=
  ⟨((s.data.dropWhile pyIsSpace).reverse.dropWhile pyIsSpace).reverse⟩

/-- Embedding of Python `str.replace(a, b)` for single-character `a`, `b`
(the only form the source uses): replace every occurrence character-wise. -/
def pyReplaceChar (s : String) (a b : Char) : String :=
  ⟨s.data.map (fun c => if c = a then b else c)⟩

/-- Index of the last occurrence of `c` in `l` starting from position `i`,
with `acc` the best index found so far (`-1` when none), as in `str.rfind`. -/
def rfindAux (l : List Char) (c : Char) (i acc : Int) : Int :=
  match l with
  | [] => acc
  | x :: xs => rfindAux xs c (i + 1) (if x = c then i else acc)

/-- Embedding of Python `str.rfind(c)`: index of the last occurrence of the
character `c`, or `-1` when absent. -/
def rfind (s : String) (c : Char) : Int :=
  rfindAux s.data c 0 (-1)

/-- Embedding of `os.path.splitext(p)[0]` (posixpath `_splitext` with
`sep='/'`, no altsep, `extsep='.'`): split at the last dot, except that a dot
with only dots between it and the last path separator does not start an
extension. -/
def splitextRoot (p : String) : String :=
  let sepIndex := rfind p '/'
  let dotIndex := rfind p '.'
  if sepIndex < dotIndex then
    if p.data.enum.any (fun ci =>
        decide (sepIndex < (ci.1 : Int)) && decide ((ci.1 : Int) < dotIndex) && ci.2 != '.') then
      ⟨p.data.take dotIndex.toNat⟩
    else p
  else p

/-- Embedding of `sanitize_title` (lines 23-27): drop the extension, replace
`_` and `-` by spaces, strip surrounding whitespace.  (The comment on line 25
also promises to "strip numbers at start", which the code does not do.) -/
def sanitize_title (fn : String) : String :=
  pyStrip (pyReplaceChar (pyReplaceChar (splitextRoot fn) '_' ' ') '-' ' ')

/-- The title derivation as worded by the spec: drop the file extension,
replace underscore and hyphen characters with spaces (in one pass), trim
leading/trailing whitespace, and nothing else. -/
def titleSpec (fn : String) : String :=
  pyStrip ⟨(splitextRoot fn).data.map (fun c => if c = '_' ∨ c = '-' then ' ' else c)⟩

/-! ## Feed rendering (`build_feed`, lines 29-49) -/

/-- The per-item dictionary built in `main` (lines 100-105): `length` is the
decimal string `str(os.path.getsize(dst))`. -/
structure FeedItem where
  filename : String
  title : String
  length : String
  url : String
deriving DecidableEq

/-- Embedding of the `<item>` block written by lines 40-47, with the moment
the ambient clock would return passed in as `now` (spec §9).  The GUID of
line 41 is `url#filename`. -/
def itemXml (now : String) (it : FeedItem) : String :=
  "    <item>\n" ++
  "      <title>" ++ it.title ++ "</title>\n" ++
  "      <pubDate>" ++ now ++ "</pubDate>\n" ++
  "      <guid isPermaLink=\"false\">" ++ it.url ++ "#" ++ it.filename ++ "</guid>\n" ++
  "      <enclosure url=\"" ++ it.url ++ "\" length=\"" ++ it.length ++ "\" type=\"audio/mpeg\" />\n" ++
  "    </item>\n"

/-- The document part written before the items (lines 32-38). -/
def feedHeader (channel_title channel_link channel_description now : String) : String :=
  "<?xml version=\"1.0\" encoding=\"UTF-8\"?>\n" ++
  "<rss version=\"2.0\">\n" ++
  "  <channel>\n" ++
  "    <title>" ++ channel_title ++ "</title>\n" ++
  "    <link>" ++ channel_link ++ "</link>\n" ++
  "    <description>" ++ channel_description ++ "</description>\n" ++
  "    <lastBuildDate>" ++ now ++ "</lastBuildDate>\n"

/-- The document part written after the items (lines 48-49). -/
def feedFooter : String := "  </channel>\n</rss>\n"

/-- Embedding of `build_feed` (lines 29-49): the text written to `out_file`,
one `<item>` block per entry of `items` in order, between header and footer. -/
def build_feed (items : List FeedItem) (channel_title channel_link channel_description : String)
    (now : String) : String :=
  feedHeader channel_title channel_link channel_description now ++
  String.join (items.map (itemXml now)) ++ feedFooter

/-! ## The `main` pipeline (lines 51-109) -/

/-- Embedding of `args.site_url.rstrip('/')` (line 65): remove every trailing
`'/'`. -/
def rstripSlashes (s : String) : String :=
  ⟨(s.data.reverse.dropWhile (fun c => c == '/')).reverse⟩

/-- Embedding of Python `str.lower()` restricted to ASCII (sufficient for the
`.mp3` suffix test of line 76). -/
def pyLower (s : String) : String :=
  ⟨s.data.map Char.toLower⟩

/-- Embedding of the candidate test of line 76: `f.lower().endswith('.mp3')`
(`str.endswith`: the argument is a suffix of the string). -/
def isMp3 (f : String) : Bool :=
  let l := (pyLower f).data
  decide (4 ≤ l.length) && (l.drop (l.length - 4) == ['.', 'm', 'p', '3'])

/-- Lexicographic comparison of code-point sequences, as Python compares
strings. -/
def lexLe : List Char → List Char → Bool
  | [], _ => true
  | _ :: _, [] => false
  | a :: as, b :: bs => if a = b then lexLe as bs else decide (a < b)

/-- Insert `a` into an already sorted list, keeping it sorted. -/
def insertSorted (a : String) : List String → List String
  | [] => [a]
  | b :: t => if lexLe a.data b.data then a :: b :: t else b :: insertSorted a t

/-- Model of Python `sorted` on strings: all comparison sorts agree on the
total lexicographic order, so we use insertion sort. -/
def pySorted (l : List String) : List String :=
  l.foldr insertSorted []

/-- Embedding of line 76: `[f for f in sorted(os.listdir(mp3_dir)) if f.lower().endswith('.mp3')]`
(lexicographic sort by code point, then the suffix filter). -/
def listMp3 (listing : List String) : List String :=
  (pySorted listing).filter isMp3

/-- The item dictionary of lines 99-105 for one chosen filename: `size` is what
`os.path.getsize` returns for the copied file, `site_url` is already stripped
of trailing slashes (line 65). -/
def mkItem (site_url : String) (size : Nat) (fn : String) : FeedItem :=
  { filename := fn
    title := sanitize_title fn
    length := toString size
    url := site_url ++ "/" ++ fn }

/-- The item list of lines 93-105: one `mkItem` per chosen file, in order, with
the stripped base URL and the copied files' sizes (`sizes` models
`os.path.getsize`). -/
def mainItems (raw_site_url : String) (sizes : String → Nat) (chosen : List String) :
    List FeedItem :=
  chosen.map (fun fn => mkItem (rstripSlashes raw_site_url) (sizes fn) fn)

/-- The feed document `main` writes (line 108): note it passes the UNSTRIPPED
`args.site_url` as the channel link, while the items carry stripped URLs. -/
def mainDoc (raw_site_url channel_title channel_desc now : String) (sizes : String → Nat)
    (chosen : List String) : String :=
  build_feed (mainItems raw_site_url sizes chosen) channel_title raw_site_url channel_desc now

/-- Filesystem state visible to the prefix of `main` (lines 68-78): whether the
source directory exists and what it lists, and the output directory's state. -/
structure FS where
  mp3DirExists : Bool
  mp3Listing : List String
  outDirExists : Bool
  outDirContents : List String
deriving DecidableEq

/-- The two fatal `SystemExit`s of `main` (lines 69 and 78); both are the
spec's `ConfigurationError`. -/
inductive RunError where
  | mp3DirNotFound
  | noMp3Files
deriving DecidableEq

instance {ε α : Type} [DecidableEq ε] [DecidableEq α] : DecidableEq (Except ε α) :=
  fun a b =>
    match a, b with
    | .ok x, .ok y => decidable_of_iff (x = y) (by simp)
    | .error e, .error f => decidable_of_iff (e = f) (by simp)
    | .ok _, .error _ => isFalse (by simp)
    | .error _, .ok _ => isFalse (by simp)

/-- Effect of lines 72-74: `shutil.rmtree(out_dir)` if it exists, then
`os.makedirs(out_dir)` — the output directory ends up existing and empty. -/
def clearOutDir (fs : FS) : FS :=
  { fs with outDirExists := true, outDirContents := [] }

/-- Embedding of lines 68-78 of `main`, in the source's order of effects:
check the source directory, THEN delete and recreate the output directory,
THEN list and filter the candidates and fail if none remain.  Returns the
filesystem state when control leaves this region together with either the
candidate list or the error raised. -/
def mainPrefix (fs : FS) : FS × Except RunError (List String) :=
  if fs.mp3DirExists = false then (fs, .error .mp3DirNotFound)
  else
    let fs1 := clearOutDir fs
    let all_files := listMp3 fs.mp3Listing
    if all_files = [] then (fs1, .error .noMp3Files)
    else (fs1, .ok all_files)

/-! ## Helper lemmas about the rotation window -/

theorem selectRotate_length (pool : List String) (tk dayIdx : Int) :
    (selectRotate pool tk dayIdx).length = tk.toNat := by
  simp [selectRotate]

theorem selectRotate_getD (pool : List String) (tk dayIdx : Int) (i : Nat)
    (hi : (i : Int) < tk) :
    (selectRotate pool tk dayIdx).getD i "" =
      pool.getD ((dayIdx * tk % (pool.length : Int) + (i : Int)) % (pool.length : Int)).toNat
        "" := by
  have him : i < tk.toNat := Int.lt_toNat.mpr hi
  have hlen : i < (selectRotate pool tk dayIdx).length := by
    rwa [selectRotate_length]
  rw [List.getD_eq_getElem _ _ hlen]
  simp [selectRotate]

theorem selectRotate_nodup (pool : List String) (tk dayIdx : Int) (hnd : pool.Nodup)
    (hle : tk ≤ (pool.length : Int)) :
    (selectRotate pool tk dayIdx).Nodup := by
  rcases Nat.eq_zero_or_pos tk.toNat with hm | hm
  · simp [selectRotate, hm]
  · have htk : 0 < tk := by omega
    have hn : 0 < (pool.length : Int) := lt_of_lt_of_le htk hle
    have hnn : (pool.length : Int) ≠ 0 := hn.ne'
    unfold selectRotate
    apply List.Nodup.map_on _ (List.nodup_range _)
    intro x hx y hy hf
    simp only [List.mem_range] at hx hy
    have hxv : ((dayIdx * tk % (pool.length : Int) + (x : Int)) % (pool.length : Int)).toNat <
        pool.length := by
      have h1 := Int.emod_nonneg (dayIdx * tk % (pool.length : Int) + (x : Int)) hnn
      have h2 := Int.emod_lt_of_pos (dayIdx * tk % (pool.length : Int) + (x : Int)) hn
      omega
    have hyv : ((dayIdx * tk % (pool.length : Int) + (y : Int)) % (pool.length : Int)).toNat <
        pool.length := by
      have h1 := Int.emod_nonneg (dayIdx * tk % (pool.length : Int) + (y : Int)) hnn
      have h2 := Int.emod_lt_of_pos (dayIdx * tk % (pool.length : Int) + (y : Int)) hn
      omega
    rw [List.getD_eq_getElem _ _ hxv, List.getD_eq_getElem _ _ hyv] at hf
    have hidx := hnd.getElem_inj_iff.mp hf
    have h1 := Int.emod_nonneg (dayIdx * tk % (pool.length : Int) + (x : Int)) hnn
    have h2 := Int.emod_nonneg (dayIdx * tk % (pool.length : Int) + (y : Int)) hnn
    have hidx' : (dayIdx * tk % (pool.length : Int) + (x : Int)) % (pool.length : Int) =
        (dayIdx * tk % (pool.length : Int) + (y : Int)) % (pool.length : Int) := by omega
    have hsub : ((x : Int) - (y : Int)) % (pool.length : Int) = 0 := by
      have h3 := Int.emod_eq_emod_iff_emod_sub_eq_zero.mp hidx'
      have h4 : dayIdx * tk % (pool.length : Int) + (x : Int) -
          (dayIdx * tk % (pool.length : Int) + (y : Int)) = (x : Int) - (y : Int) := by ring
      rwa [h4] at h3
    have hdvd : (pool.length : Int) ∣ ((x : Int) - (y : Int)) :=
      Int.dvd_of_emod_eq_zero hsub
    have hxv' : (x : Int) < tk := Int.lt_toNat.mp hx
    have hyv' : (y : Int) < tk := Int.lt_toNat.mp hy
    have habs : |(x : Int) - (y : Int)| < (pool.length : Int) := by
      rw [abs_lt]
      omega
    have := Int.eq_zero_of_abs_lt_dvd hdvd habs
    omega

theorem selectRotate_full (pool : List String) (dayIdx : Int) :
    selectRotate pool (pool.length : Int) dayIdx = pool := by
  rcases eq_or_ne pool [] with h | h
  · simp [h, selectRotate]
  · have hn : 0 < (pool.length : Int) := by
      have := List.length_pos.mpr h
      omega
    apply List.ext_getElem
    · rw [selectRotate_length]
      omega
    · intro i h1 h2
      rw [← List.getD_eq_getElem _ "" h1, ← List.getD_eq_getElem _ "" h2,
        selectRotate_getD pool _ dayIdx i (by exact_mod_cast h2)]
      congr 1
      rw [Int.mul_emod_left, zero_add, Int.emod_eq_of_lt (by omega) (by exact_mod_cast h2)]
      omega

/-! ## Claims -/

/-- C1: for a non-empty pool of N distinct filenames, `0 < take <= N`, and any
reference date, rotate-mode selection returns exactly `take` distinct
filenames with `result[i] = pool[(start + i) mod N]` where
`start = (dayIndex * take) mod N` (floor-modulo) and `dayIndex` counts days
from the epoch 2020-01-01; in particular for N=5, take=2 the windows for
dayIndex 0 and 1 are `[pool[0], pool[1]]` and `[pool[2], pool[3]]`. -/
theorem C1_rotate_window (pool : List String) (tk dayIdx : Int) (hnd : pool.Nodup)
    (h0 : 0 < tk) (hle : tk ≤ (pool.length : Int)) :
    ((selectRotate pool tk dayIdx).length : Int) = tk ∧
    (selectRotate pool tk dayIdx).Nodup ∧
    (∀ i : Nat, (i : Int) < tk →
      (selectRotate pool tk dayIdx).getD i "" =
        pool.getD ((dayIdx * tk % (pool.length : Int) + (i : Int)) %
          (pool.length : Int)).toNat "") ∧
    dayIndexOf 2020 1 1 = 0 ∧ dayIndexOf 2020 1 2 = 1 ∧
    (∀ p : List String, p.length = 5 →
      selectRotate p 2 0 = [p.getD 0 "", p.getD 1 ""] ∧
      selectRotate p 2 1 = [p.getD 2 "", p.getD 3 ""]) := by
  refine ⟨?_, selectRotate_nodup pool tk dayIdx hnd hle,
    fun i hi => selectRotate_getD pool tk dayIdx i hi, by decide, by decide, ?_⟩
  · rw [selectRotate_length]
    omega
  · intro p hp
    constructor
    · simp [selectRotate, hp, List.range_succ]
    · simp [selectRotate, hp, List.range_succ]

theorem C1_rotate_window_witness :
    ((selectRotate ["a.mp3", "b.mp3", "c.mp3"] 2 5).length : Int) = 2 ∧
    (selectRotate ["a.mp3", "b.mp3", "c.mp3"] 2 5).Nodup :=
  ⟨(C1_rotate_window ["a.mp3", "b.mp3", "c.mp3"] 2 5 (by decide) (by decide) (by decide)).1,
   (C1_rotate_window ["a.mp3", "b.mp3", "c.mp3"] 2 5 (by decide) (by decide) (by decide)).2.1⟩

/-- C4: for dates strictly before the epoch (negative `dayIndex`) and any
non-empty pool with `0 < take <= N`, the start index `(dayIndex * take) mod N`
is a floor-modulo result lying in `[0, N)`, and the selection is still the
contiguous circular window with no negative indexing; 2019-12-31 has
dayIndex -1. -/
theorem C4_negative_dayindex (pool : List String) (tk dayIdx : Int) (hne : pool ≠ [])
    (hneg : dayIdx < 0) (h0 : 0 < tk) (hle : tk ≤ (pool.length : Int)) :
    0 ≤ dayIdx * tk % (pool.length : Int) ∧
    dayIdx * tk % (pool.length : Int) < (pool.length : Int) ∧
    dayIdx * tk % (pool.length : Int) = Int.fmod (dayIdx * tk) (pool.length : Int) ∧
    ((selectRotate pool tk dayIdx).length : Int) = tk ∧
    (∀ i : Nat, (i : Int) < tk →
      (selectRotate pool tk dayIdx).getD i "" =
        pool.getD ((dayIdx * tk % (pool.length : Int) + (i : Int)) %
          (pool.length : Int)).toNat "") ∧
    dayIndexOf 2019 12 31 = -1 := by
  have hn : 0 < (pool.length : Int) := lt_of_lt_of_le h0 hle
  exact ⟨Int.emod_nonneg _ hn.ne', Int.emod_lt_of_pos _ hn,
    (Int.fmod_eq_emod _ hn.le).symm,
    by rw [selectRotate_length]; omega,
    fun i hi => selectRotate_getD pool tk dayIdx i hi, by decide⟩

theorem C4_negative_dayindex_witness :
    0 ≤ (-1 : Int) * 2 % ((["a.mp3", "b.mp3", "c.mp3"] : List String).length : Int) ∧
    (-1 : Int) * 2 % ((["a.mp3", "b.mp3", "c.mp3"] : List String).length : Int) <
      ((["a.mp3", "b.mp3", "c.mp3"] : List String).length : Int) :=
  ⟨(C4_negative_dayindex ["a.mp3", "b.mp3", "c.mp3"] 2 (-1) (by decide) (by decide)
      (by decide) (by decide)).1,
   (C4_negative_dayindex ["a.mp3", "b.mp3", "c.mp3"] 2 (-1) (by decide) (by decide)
      (by decide) (by decide)).2.1⟩

/-- C7: when the requested count exceeds the pool size, `take = min(count, N)`
is `N` and the selection returns the entire pool without error — exactly in
rotate mode, and as a full permutation in random mode. -/
theorem C7_count_gt_pool (pool : List String) (count dayIdx : Int) (hne : pool ≠ [])
    (hc : (pool.length : Int) < count) :
    min count (pool.length : Int) = (pool.length : Int) ∧
    choose .rotate pool count dayIdx pool = some pool ∧
    ∀ perm : List String, perm.Perm pool →
      choose .random pool count dayIdx perm = some perm := by
  have hmin : min count (pool.length : Int) = (pool.length : Int) := min_eq_right hc.le
  refine ⟨hmin, ?_, ?_⟩
  · simp only [choose, hmin, Option.some_inj]
    exact selectRotate_full pool dayIdx
  · intro perm hperm
    have hlen : perm.length = pool.length := hperm.length_eq
    have hcond : 0 ≤ (pool.length : Int) ∧ (pool.length : Int) ≤ (perm.length : Int) := by
      omega
    simp only [choose, hmin, randomSample, if_pos hcond, Option.some_inj]
    rw [← hlen]
    simp

theorem C7_count_gt_pool_witness :
    choose .rotate ["a.mp3", "b.mp3"] 5 3 ["a.mp3", "b.mp3"] = some ["a.mp3", "b.mp3"] :=
  (C7_count_gt_pool ["a.mp3", "b.mp3"] 5 3 (by decide) (by decide)).2.1

/-- C8 (implicit): whenever the requested count is at least the pool size
(`take = N`), the rotate-mode start index `(dayIndex * N) mod N` is `0` for
every reference date, so the selection is the whole pool in its original
order, independent of the date. -/
theorem C8_full_take_start_zero (pool : List String) (count dayIdx : Int) (hne : pool ≠ [])
    (hc : (pool.length : Int) ≤ count) :
    dayIdx * min count (pool.length : Int) % (pool.length : Int) = 0 ∧
    choose .rotate pool count dayIdx pool = some pool := by
  have hmin : min count (pool.length : Int) = (pool.length : Int) := min_eq_right hc
  refine ⟨?_, ?_⟩
  · rw [hmin]
    exact Int.mul_emod_left dayIdx _
  · simp only [choose, hmin, Option.some_inj]
    exact selectRotate_full pool dayIdx

theorem C8_full_take_start_zero_witness :
    choose .rotate ["a.mp3", "b.mp3"] 2 (-5) ["a.mp3", "b.mp3"] = some ["a.mp3", "b.mp3"] :=
  (C8_full_take_start_zero ["a.mp3", "b.mp3"] 2 (-5) (by decide) (by decide)).2

/-- C2 counterexample: with the source directory present but holding no
`.mp3` file and a non-empty output directory, the run does fail with the
configuration error — but the output directory HAS been mutated (deleted and
recreated empty) before the candidate listing was validated, contradicting
the claimed ordering. -/
theorem C2_counterexample :
    (mainPrefix ⟨true, ["readme.txt"], true, ["old.mp3"]⟩).2 =
      Except.error RunError.noMp3Files ∧
    (mainPrefix ⟨true, ["readme.txt"], true, ["old.mp3"]⟩).1 ≠
      ⟨true, ["readme.txt"], true, ["old.mp3"]⟩ ∧
    (mainPrefix ⟨true, ["readme.txt"], true, ["old.mp3"]⟩).1.outDirContents = [] := by
  decide

/-- C2 amended: when the source directory exists but contains no file with a
case-insensitive `.mp3` extension, the run fails with the configuration error
(`SystemExit: No mp3 files found`), but only AFTER the existing output
directory has been deleted and recreated empty — lines 72-74 mutate the
output directory before line 76-78 validate the candidate listing. -/
theorem C2_empty_pool_after_mutation (fs : FS) (h1 : fs.mp3DirExists = true)
    (h2 : listMp3 fs.mp3Listing = []) :
    (mainPrefix fs).2 = Except.error RunError.noMp3Files ∧
    (mainPrefix fs).1 = clearOutDir fs := by
  simp [mainPrefix, h1, h2]

theorem C2_empty_pool_after_mutation_witness :
    (mainPrefix ⟨true, ["readme.txt"], true, ["old.mp3"]⟩).2 =
      Except.error RunError.noMp3Files ∧
    (mainPrefix ⟨true, ["readme.txt"], true, ["old.mp3"]⟩).1 =
      clearOutDir ⟨true, ["readme.txt"], true, ["old.mp3"]⟩ :=
  C2_empty_pool_after_mutation ⟨true, ["readme.txt"], true, ["old.mp3"]⟩
    (by decide) (by decide)

/-- C3 counterexample: for a non-empty pool and a negative requested count,
random-mode selection does not return an empty selection — `random.sample`
raises `ValueError` on a negative sample size. -/
theorem C3_counterexample :
    choose .random ["a.mp3"] (-1) 0 ["a.mp3"] = none ∧
    choose .random ["a.mp3"] (-1) 0 ["a.mp3"] ≠ some [] := by
  decide

/-- C3 amended: for every non-empty pool and `count <= 0`, rotate-mode
selection returns 0 items; random mode returns 0 items when `count = 0`, but
for `count < 0` it raises `ValueError` instead of returning an empty
selection. -/
theorem C3_nonpositive_count (pool perm : List String) (num dayIdx : Int)
    (hne : pool ≠ []) (hperm : perm.length = pool.length) (hnum : num ≤ 0) :
    choose .rotate pool num dayIdx perm = some [] ∧
    (num = 0 → choose .random pool num dayIdx perm = some []) ∧
    (num < 0 → choose .random pool num dayIdx perm = none) := by
  have hn : 0 < pool.length := List.length_pos.mpr hne
  have hmin : min num (pool.length : Int) = num := min_eq_left (by omega)
  refine ⟨?_, ?_, ?_⟩
  · simp only [choose, hmin, Option.some_inj, selectRotate]
    have : num.toNat = 0 := by omega
    simp [this]
  · intro h0
    subst h0
    simp only [choose, hmin, randomSample]
    rw [if_pos ⟨le_refl _, by omega⟩]
    simp
  · intro hlt
    simp only [choose, hmin, randomSample]
    rw [if_neg]
    omega

theorem C3_nonpositive_count_witness :
    choose .rotate ["a.mp3"] (-1) 0 ["a.mp3"] = some [] ∧
    ((-1 : Int) = 0 → choose .random ["a.mp3"] (-1) 0 ["a.mp3"] = some []) ∧
    ((-1 : Int) < 0 → choose .random ["a.mp3"] (-1) 0 ["a.mp3"] = none) :=
  C3_nonpositive_count ["a.mp3"] ["a.mp3"] (-1) 0 (by decide) (by decide) (by decide)

/-- C5: the derived title is exactly the filename with its extension dropped,
every underscore and hyphen replaced by a space, and surrounding whitespace
trimmed — no case change and no stripping of leading numeric prefixes;
`"My_Song-01.mp3"` gives `"My Song 01"` and `"track.mp3"` gives `"track"`. -/
theorem C5_title_derivation :
    (∀ fn : String, sanitize_title fn = titleSpec fn) ∧
    sanitize_title "My_Song-01.mp3" = "My Song 01" ∧
    sanitize_title "track.mp3" = "track" ∧
    sanitize_title "01_track.mp3" = "01 track" ∧
    sanitize_title "LOUD.mp3" = "LOUD" := by
  refine ⟨?_, by decide, by decide, by decide, by decide⟩
  intro fn
  show pyStrip ⟨((splitextRoot fn).data.map _).map _⟩ = pyStrip ⟨(splitextRoot fn).data.map _⟩
  rw [List.map_map]
  have hfun : ((fun c => if c = '-' then ' ' else c) ∘ fun c => if c = '_' then ' ' else c) =
      fun c : Char => if c = '_' ∨ c = '-' then ' ' else c := by
    funext c
    by_cases h1 : c = '_'
    · subst h1
      decide
    · by_cases h2 : c = '-'
      · subst h2
        decide
      · simp [Function.comp, h1, h2]
  rw [hfun]

/-- C10 (implicit): title derivation is not injective — `"My_Song.mp3"` and
`"My-Song.mp3"` are distinct filenames with the same derived title, and the
items built for them differ only in URL and GUID, not in title. -/
theorem C10_title_not_injective :
    ("My_Song.mp3" : String) ≠ "My-Song.mp3" ∧
    sanitize_title "My_Song.mp3" = sanitize_title "My-Song.mp3" ∧
    (mkItem "https://host" 7 "My_Song.mp3").title =
      (mkItem "https://host" 7 "My-Song.mp3").title ∧
    (mkItem "https://host" 7 "My_Song.mp3").url ≠
      (mkItem "https://host" 7 "My-Song.mp3").url ∧
    (mkItem "https://host" 7 "My_Song.mp3").url ++ "#" ++ "My_Song.mp3" ≠
      (mkItem "https://host" 7 "My-Song.mp3").url ++ "#" ++ "My-Song.mp3" := by
  refine ⟨by decide, by decide, by decide, by decide, by decide⟩

set_option maxRecDepth 8192 in
/-- C6: the rendered document is the channel header followed by exactly one
`<item>` block per `FeedItem` in input order and the closing tags; each item
carries `<guid isPermaLink="false">` holding URL `#` filename, and an
enclosure with the URL, the byte length, and MIME type `audio/mpeg`; the
claim's single-item example renders exactly as stated. -/
theorem C6_feed_rendering (items : List FeedItem) (ct cl cd now : String) :
    build_feed items ct cl cd now =
      feedHeader ct cl cd now ++ String.join (items.map (itemXml now)) ++ feedFooter ∧
    (∀ it : FeedItem, ∃ a b : String,
      itemXml now it =
        a ++ ("      <guid isPermaLink=\"false\">" ++ (it.url ++ "#" ++ it.filename) ++
          "</guid>\n") ++ b) ∧
    (∀ it : FeedItem, ∃ a b : String,
      itemXml now it =
        a ++ ("      <enclosure url=\"" ++ it.url ++ "\" length=\"" ++ it.length ++
          "\" type=\"audio/mpeg\" />\n") ++ b) ∧
    build_feed [⟨"a.mp3", "a", "1234", "https://host/a.mp3"⟩] "T" "L" "D" "NOW" =
      "<?xml version=\"1.0\" encoding=\"UTF-8\"?>\n<rss version=\"2.0\">\n  <channel>\n    <title>T</title>\n    <link>L</link>\n    <description>D</description>\n    <lastBuildDate>NOW</lastBuildDate>\n    <item>\n      <title>a</title>\n      <pubDate>NOW</pubDate>\n      <guid isPermaLink=\"false\">https://host/a.mp3#a.mp3</guid>\n      <enclosure url=\"https://host/a.mp3\" length=\"1234\" type=\"audio/mpeg\" />\n    </item>\n  </channel>\n</rss>\n" := by
  refine ⟨rfl, ?_, ?_, by decide⟩
  · intro it
    refine ⟨"    <item>\n" ++ "      <title>" ++ it.title ++ "</title>\n" ++
      "      <pubDate>" ++ now ++ "</pubDate>\n",
      "      <enclosure url=\"" ++ it.url ++ "\" length=\"" ++ it.length ++
        "\" type=\"audio/mpeg\" />\n" ++ "    </item>\n", ?_⟩
    simp only [itemXml, String.append_assoc]
  · intro it
    refine ⟨"    <item>\n" ++ "      <title>" ++ it.title ++ "</title>\n" ++
      "      <pubDate>" ++ now ++ "</pubDate>\n" ++
      "      <guid isPermaLink=\"false\">" ++ it.url ++ "#" ++ it.filename ++ "</guid>\n",
      "    </item>\n", ?_⟩
    simp only [itemXml, String.append_assoc]

theorem rstripSlashes_ne_of_trailing_slash (s : String) (h : s.data.getLast? = some '/') :
    rstripSlashes s ≠ s := by
  intro heq
  have hdata : (s.data.reverse.dropWhile (fun c => c == '/')).reverse = s.data :=
    congrArg String.data heq
  have hrev : s.data.reverse.head? = some '/' := by
    rw [List.head?_reverse]
    exact h
  have hlen : (s.data.reverse.dropWhile (fun c => c == '/')).length <
      s.data.reverse.length := by
    rcases hcons : s.data.reverse with _ | ⟨c, t⟩
    · rw [hcons] at hrev
      simp at hrev
    · rw [hcons] at hrev
      simp only [List.head?_cons, Option.some_inj] at hrev
      rw [List.dropWhile_cons_of_pos (by simp [hrev])]
      have ht := (List.dropWhile_suffix (l := t) (fun c => c == '/')).sublist.length_le
      simp only [List.length_cons]
      omega
  have hl2 : (s.data.reverse.dropWhile (fun c => c == '/')).reverse.length = s.data.length :=
    congrArg List.length hdata
  rw [List.length_reverse] at hl2
  rw [List.length_reverse] at hlen
  omega

/-- C9 (implicit): the channel `<link>` receives the site URL exactly as
supplied, while every per-item URL is the site URL with trailing `/`
stripped, then `/` and the filename; so a base URL ending in `/` makes the
channel link differ from the item URL prefix. -/
theorem C9_channel_link_raw (site ct cd now : String) (sizes : String → Nat)
    (chosen : List String) (h : site.data.getLast? = some '/') :
    rstripSlashes site ≠ site ∧
    (∀ it ∈ mainItems site sizes chosen,
      it.url = rstripSlashes site ++ "/" ++ it.filename) ∧
    (∃ a b : String, mainDoc site ct cd now sizes chosen =
      a ++ ("    <link>" ++ site ++ "</link>\n") ++ b) ∧
    rstripSlashes "https://host/" = "https://host" ∧
    (mkItem (rstripSlashes "https://host/") 5 "a.mp3").url = "https://host/a.mp3" := by
  refine ⟨rstripSlashes_ne_of_trailing_slash site h, ?_, ?_, by decide, by decide⟩
  · intro it hit
    simp only [mainItems, List.mem_map] at hit
    obtain ⟨fn, _, rfl⟩ := hit
    rfl
  · refine ⟨"<?xml version=\"1.0\" encoding=\"UTF-8\"?>\n" ++ "<rss version=\"2.0\">\n" ++
      "  <channel>\n" ++ "    <title>" ++ ct ++ "</title>\n",
      "    <description>" ++ cd ++ "</description>\n" ++
      "    <lastBuildDate>" ++ now ++ "</lastBuildDate>\n" ++
      String.join ((mainItems site sizes chosen).map (itemXml now)) ++ feedFooter, ?_⟩
    simp only [mainDoc, build_feed, feedHeader, String.append_assoc]

theorem C9_channel_link_raw_witness :
    rstripSlashes "https://host/" ≠ "https://host/" :=
  (C9_channel_link_raw "https://host/" "T" "D" "N" (fun _ => 0) ["a.mp3"] (by decide)).1
